import Mathlib

/-!
Verification development for the chitin-social backend (apps/api).

The TypeScript sources are shallowly embedded: each repository method or
Express handler becomes a pure Lean function over explicit state
(lists of rows standing for the corresponding tables), and each awaited
database query becomes either a direct computation on that state or an
explicit argument carrying the query result (an Except value when the
source wraps the query in try/catch).  Timestamps are naturals counting
milliseconds since the epoch, matching Date.now() arithmetic in the code.
-/

namespace ChitinSocial

/-! ## Shared data model (packages/shared and db row shapes) -/

inductive UserType
  | human
  | agent
deriving DecidableEq, Repr

/-- The req.user value attached by the auth middleware. -/
structure AuthenticatedUser where
  id : String
  email : String
  user_type : UserType
deriving DecidableEq, Repr

/-- Decoded JWT payload (AuthTokenPayload).  In the source user_type
defaults to human when absent; the default is applied here at
construction time. -/
structure AuthTokenPayload where
  id : String
  email : String
  user_type : UserType
  jti : Option String
deriving DecidableEq, Repr

/-- Row of agent_identities.  Timestamp columns that no embedded code
reads (created_at, updated_at) are omitted. -/
structure AgentIdentity where
  id : String
  owner_id : String
  name : String
  description : Option String
  model_info : Option String
  deleted_at : Option Nat
deriving DecidableEq, Repr

/-- Row of agent_tokens (the surrogate primary key column is omitted;
tokens are identified by jti). -/
structure AgentToken where
  agent_id : String
  jti : String
  expires_at : Nat
  revoked_at : Option Nat
  created_at : Nat
deriving DecidableEq, Repr

/-- Row of users (columns unused by the embedded handlers omitted). -/
structure UserRec where
  id : String
  email : String
  user_type : UserType
  display_name : Option String
  deleted_at : Option Nat
deriving DecidableEq, Repr

/-- A row of posts, replies or votes as seen by the aggregate activity
query: only the author (user_id for votes) and creation time matter. -/
structure ActivityRecord where
  author_id : String
  created_at : Nat
deriving DecidableEq, Repr

/-- Result shape of AgentRepo.getOwnerActivityCounts. -/
structure ActivityCounts where
  posts : Nat
  replies : Nat
  votes : Nat
deriving DecidableEq, Repr

/-- The action parameter of createOwnerAggregateLimiter. -/
inductive ActionKind
  | posts
  | replies
  | votes
deriving DecidableEq, Repr

def ActivityCounts.get (c : ActivityCounts) : ActionKind → Nat
  | .posts => c.posts
  | .replies => c.replies
  | .votes => c.votes

/-- Database state visible to the agent trust and rate subsystem. -/
structure SocialState where
  agents : List AgentIdentity
  posts : List ActivityRecord
  replies : List ActivityRecord
  votes : List ActivityRecord
deriving DecidableEq, Repr

/-- JavaScript toLowerCase as the character-wise lowering of the
string (the handles and owner ids involved are plain ASCII). -/
def lowerStr (s : String) : String := ⟨s.data.map Char.toLower⟩

/-! ## AgentRepo (src/apps/api/src/db/repositories/AgentRepo.ts) -/

namespace AgentRepo

/-- SELECT * FROM agent_identities WHERE id = $1 AND deleted_at IS NULL
with the argument lowercased; rows[0] of the result. -/
def findById (agents : List AgentIdentity) (id : String) : Option AgentIdentity :=
  agents.find? fun a => a.id = lowerStr id && a.deleted_at.isNone

/-- SELECT COUNT(*) FROM agent_identities WHERE owner_id = $1 AND deleted_at IS NULL. -/
def countByOwner (agents : List AgentIdentity) (ownerId : String) : Nat :=
  (agents.filter fun a => a.owner_id = lowerStr ownerId && a.deleted_at.isNone).length

/-- INSERT INTO agent_identities; id and owner_id are lowercased. -/
def create (agents : List AgentIdentity) (id ownerId name : String)
    (description modelInfo : Option String) : List AgentIdentity × AgentIdentity :=
  let row : AgentIdentity :=
    { id := lowerStr id, owner_id := lowerStr ownerId, name := name,
      description := description, model_info := modelInfo, deleted_at := none }
  (agents ++ [row], row)

/-- UPDATE agent_identities SET deleted_at = NOW() WHERE id = $1 AND deleted_at IS NULL. -/
def softDelete (agents : List AgentIdentity) (id : String) (now : Nat) : List AgentIdentity :=
  agents.map fun a =>
    if a.id = lowerStr id && a.deleted_at.isNone then { a with deleted_at := some now } else a

/-- INSERT INTO agent_tokens (agent_id, jti, expires_at) VALUES ... RETURNING *. -/
def createToken (tokens : List AgentToken) (agentId jti : String)
    (expiresAt now : Nat) : List AgentToken × AgentToken :=
  let row : AgentToken :=
    { agent_id := lowerStr agentId, jti := jti, expires_at := expiresAt,
      revoked_at := none, created_at := now }
  (tokens ++ [row], row)

/-- SELECT EXISTS(SELECT 1 FROM agent_tokens WHERE jti = $1 AND
revoked_at IS NULL AND expires_at > NOW()). -/
def isTokenValid (tokens : List AgentToken) (now : Nat) (jti : String) : Bool :=
  tokens.any fun t => t.jti = jti && t.revoked_at.isNone && decide (now < t.expires_at)

/-- UPDATE agent_tokens SET revoked_at = NOW() WHERE agent_id = $1 AND revoked_at IS NULL. -/
def revokeAllTokens (tokens : List AgentToken) (agentId : String) (now : Nat) : List AgentToken :=
  tokens.map fun t =>
    if t.agent_id = lowerStr agentId && t.revoked_at.isNone then
      { t with revoked_at := some now }
    else t

/-- The aggregate activity CTE query: count posts, replies and votes
whose author is any non-deleted agent of the (lowercased) owner and
whose created_at is strictly after windowStart. -/
def getOwnerActivityCounts (s : SocialState) (ownerId : String)
    (windowStart : Nat) : ActivityCounts :=
  let ownerAgents :=
    (s.agents.filter fun a => a.owner_id = lowerStr ownerId && a.deleted_at.isNone).map
      fun a => a.id
  let countIn (rows : List ActivityRecord) : Nat :=
    (rows.filter fun r => ownerAgents.contains r.author_id && decide (windowStart < r.created_at)).length
  { posts := countIn s.posts, replies := countIn s.replies, votes := countIn s.votes }

end AgentRepo

/-! ## Auth middleware (src/apps/api/src/middleware, second file: auth) -/

/-- What a middleware or handler sends back. -/
inductive AuthResult
  | ok (user : AuthenticatedUser)
  | err (status : Nat) (error : String) (message : String)
deriving DecidableEq, Repr

/-- The authenticateToken middleware, modelled from the branch where a
bearer token is present and jwt.verify succeeded, yielding the decoded
payload.  (The dev_token shortcut applies only to the literal string
dev_token, which is not a signed credential and carries no jti; a
missing token or failed signature check rejects before this point.)
The payload-structure check throwing lands in the catch branch and
answers 403.  The jti revocation check queries the token store each
time through AgentRepo.isTokenValid, so it always sees the current
authoritative revocation state. -/
def authenticateToken (tokens : List AgentToken) (now : Nat)
    (decoded : AuthTokenPayload) : AuthResult :=
  if decoded.id = "" || decoded.email = "" then
    .err 403 "Forbidden" "Invalid authentication token"
  else
    match decoded.jti with
    | some jti =>
      if AgentRepo.isTokenValid tokens now jti then
        .ok { id := decoded.id, email := decoded.email, user_type := decoded.user_type }
      else
        .err 401 "Unauthorized" "Token has been revoked"
    | none =>
      .ok { id := decoded.id, email := decoded.email, user_type := decoded.user_type }

/-- generateAuthToken: the signed JWT is modelled by its payload (the
signature and the expiresIn signing option are not part of the payload;
expiry of agent tokens is enforced through the stored token record). -/
def generateAuthToken (id email : String) (userType : UserType)
    (jti : Option String) : AuthTokenPayload :=
  { id := id, email := email, user_type := userType, jti := jti }

/-! ## Per-owner aggregate limiter (src/apps/api/src/middleware/agentAggregateLimit.ts) -/

def AGGREGATE_LIMITS : ActionKind → Nat
  | .posts => 100
  | .replies => 500
  | .votes => 1500

def WINDOW_MS : Nat := 60 * 60 * 1000

/-- next() versus res.status(...).json({error, ...}). -/
inductive LimiterDecision
  | next
  | respond (status : Nat) (error : String)
deriving DecidableEq, Repr

/-- createOwnerAggregateLimiter action, applied to one request.  The two
awaited queries inside the try block are passed as Except values; a
query error corresponds to the .error case and is handled by the catch
branch, which calls next() (fail open). -/
def createOwnerAggregateLimiter (action : ActionKind)
    (user : Option AuthenticatedUser)
    (agentLookup : Except Unit (Option AgentIdentity))
    (countsLookup : Except Unit ActivityCounts) : LimiterDecision :=
  match user with
  | none => .next
  | some u =>
    if u.user_type ≠ .agent then .next
    else
      match agentLookup with
      | .error _ => .next
      | .ok none => .respond 401 "Unauthorized"
      | .ok (some _) =>
        match countsLookup with
        | .error _ => .next
        | .ok counts =>
          if AGGREGATE_LIMITS action ≤ counts.get action then
            .respond 429 "Too Many Requests"
          else .next

/-! ## Feed ranking (src/apps/api/src/db/repositories/PostRepo.ts, getFeed)

The SQL ORDER BY keys of the hot, rising and controversial modes are
real-valued formulas; the precedence tests below are their exact
integer reformulations obtained by raising both sides to the 5th power
(x to x^5 is strictly monotone on the reals, and the fractional
exponents are 9/5 and 6/5) and clearing the positive denominators, so
no floating point is needed.  They agree with the SQL keys whenever no
row is dated more than two hours in the future (the denominators stay
positive).  Ties in the primary key fall through to created_at DESC as
in the ORDER BY clauses. -/

/-- Row of posts (title, content and the analysis columns are omitted:
getFeed never reads them). -/
structure Post where
  id : Nat
  author_id : String
  score : Int
  vote_count : Nat
  reply_count : Nat
  created_at : Nat
  deleted_at : Option Nat
deriving DecidableEq, Repr

inductive FeedSortType
  | new
  | top
  | hot
  | rising
  | controversial
deriving DecidableEq, Repr

/-- A parsed pagination cursor: a bare timestamp, or for the top sort
the composite score_timestamp string split at the underscore. -/
inductive FeedCursor
  | time (t : Nat)
  | scoreTime (score : Int) (t : Nat)
deriving DecidableEq, Repr

/-- config.feedAlgorithms with its environment defaults. -/
structure FeedConfig where
  risingWindowHours : Nat := 24
  controversialMinVotes : Nat := 5
deriving DecidableEq, Repr

def defaultFeedConfig : FeedConfig := {}

def HOUR_MS : Nat := 3600000

/-- Age of a post in milliseconds (an Int: the SQL expression NOW() -
created_at can be negative for future-dated rows). -/
def ageMs (now : Nat) (p : Post) : Int := (now : Int) - (p.created_at : Int)

/-- ORDER BY p.score DESC, p.created_at DESC: a precedes b. -/
def topLe (a b : Post) : Bool :=
  decide (b.score < a.score) ||
    (decide (a.score = b.score) && decide (b.created_at ≤ a.created_at))

/-- ORDER BY p.created_at DESC. -/
def newLe (a b : Post) : Bool := decide (b.created_at ≤ a.created_at)

/-- hot key score / (ageHours + 2)^1.8 DESC, created_at DESC, with the
comparison score_a^5 * (ms_b + 7200000)^9 vs score_b^5 * (ms_a + 7200000)^9. -/
def hotLe (now : Nat) (a b : Post) : Bool :=
  let ka := a.score ^ 5 * (ageMs now b + 7200000) ^ 9
  let kb := b.score ^ 5 * (ageMs now a + 7200000) ^ 9
  decide (kb < ka) || (decide (ka = kb) && decide (b.created_at ≤ a.created_at))

/-- rising key vote_count / (ageHours + 2)^1.2 DESC, created_at DESC. -/
def risingLe (now : Nat) (a b : Post) : Bool :=
  let ka := (a.vote_count : Int) ^ 5 * (ageMs now b + 7200000) ^ 6
  let kb := (b.vote_count : Int) ^ 5 * (ageMs now a + 7200000) ^ 6
  decide (kb < ka) || (decide (ka = kb) && decide (b.created_at ≤ a.created_at))

/-- controversial key vote_count / (|score| + 1) DESC, created_at DESC. -/
def controversialLe (a b : Post) : Bool :=
  let ka := (a.vote_count : Int) * ((b.score.natAbs : Int) + 1)
  let kb := (b.vote_count : Int) * ((a.score.natAbs : Int) + 1)
  decide (kb < ka) || (decide (ka = kb) && decide (b.created_at ≤ a.created_at))

def feedLe (sort : FeedSortType) (now : Nat) (a b : Post) : Bool :=
  match sort with
  | .new => newLe a b
  | .top => topLe a b
  | .hot => hotLe now a b
  | .rising => risingLe now a b
  | .controversial => controversialLe a b

/-- The per-mode WHERE restriction: the rising recency window and the
controversial minimum vote_count. -/
def modeCond (sort : FeedSortType) (cfg : FeedConfig) (now : Nat) (p : Post) : Bool :=
  match sort with
  | .rising =>
    decide ((now : Int) - (cfg.risingWindowHours * HOUR_MS : Nat) < (p.created_at : Int))
  | .controversial => decide (cfg.controversialMinVotes ≤ p.vote_count)
  | _ => true

/-- The cursor part of the WHERE clause.  Cursors of the wrong shape
for the mode never arise from getFeed itself; they match nothing. -/
def cursorCond (sort : FeedSortType) (cursor : Option FeedCursor) (p : Post) : Bool :=
  match sort, cursor with
  | _, none => true
  | .top, some (.scoreTime s t) =>
    decide (p.score < s) || (decide (p.score = s) && decide (p.created_at < t))
  | .top, some (.time _) => false
  | _, some (.time t) => decide (p.created_at < t)
  | _, some (.scoreTime _ _) => false

structure PaginatedFeed where
  items : List Post
  cursor : Option FeedCursor
  hasMore : Bool
deriving DecidableEq, Repr

namespace PostRepo

/-- SELECT * FROM posts WHERE id = $1 AND deleted_at IS NULL. -/
def findById (posts : List Post) (id : Nat) : Option Post :=
  posts.find? fun p => p.id = id && p.deleted_at.isNone

/-- PostRepo.getFeed: filter out soft-deleted rows, apply the per-mode
restriction and the cursor condition, order by the mode key, fetch
limit+1 rows, trim to limit and report hasMore, and build the next
cursor from the last returned item (composite for top, bare timestamp
otherwise). -/
def getFeed (cfg : FeedConfig) (posts : List Post) (sort : FeedSortType)
    (limit : Nat) (cursor : Option FeedCursor) (now : Nat) : PaginatedFeed :=
  let matching := posts.filter fun p =>
    p.deleted_at.isNone && modeCond sort cfg now p && cursorCond sort cursor p
  let rows := (List.insertionSort (fun a b => feedLe sort now a b = true) matching).take (limit + 1)
  let hasMore := decide (limit < rows.length)
  let items := rows.take limit
  let nextCursor : Option FeedCursor :=
    if hasMore then
      match items.getLast? with
      | none => none
      | some last =>
        match sort with
        | .top => some (.scoreTime last.score last.created_at)
        | _ => some (.time last.created_at)
    else none
  { items := items, cursor := nextCursor, hasMore := hasMore }

end PostRepo

/-! ## Replies (ReplyRepo in the second repositories file, and
POST /posts/:id/replies in src/apps/api/src/routes/posts.ts) -/

/-- CreateReplyInput; reply ids are naturals here, so the ltree label
(the id with dashes replaced) is just the decimal string. -/
structure CreateReplyInput where
  content : String
  parent_reply_id : Option Nat := none
  target_adu_id : Option Nat := none
  quoted_text : Option String := none
deriving DecidableEq, Repr

structure Reply where
  id : Nat
  post_id : Nat
  author_id : String
  parent_reply_id : Option Nat
  target_adu_id : Option Nat
  content : String
  depth : Nat
  path : String
  deleted_at : Option Nat
deriving DecidableEq, Repr

namespace ReplyRepo

/-- SELECT * FROM replies WHERE id = $1 AND deleted_at IS NULL. -/
def findById (replies : List Reply) (id : Nat) : Option Reply :=
  replies.find? fun r => r.id = id && r.deleted_at.isNone

/-- ReplyRepo.create: inside one transaction, look up the non-deleted
parent (throwing if absent), insert the reply with depth parent+1, then
set its ltree path from the parent path and the new id.  newId stands
for the id the database generates. -/
def create (replies : List Reply) (postId : Nat) (authorId : String)
    (input : CreateReplyInput) (newId : Nat) : Except String (List Reply × Reply) :=
  let label := toString newId
  match input.parent_reply_id with
  | some pid =>
    match findById replies pid with
    | none => .error "Parent reply not found"
    | some parent =>
      let row : Reply :=
        { id := newId, post_id := postId, author_id := authorId,
          parent_reply_id := some pid, target_adu_id := input.target_adu_id,
          content := input.content, depth := parent.depth + 1,
          path := if parent.path = "" then label else parent.path ++ "." ++ label,
          deleted_at := none }
      .ok (replies ++ [row], row)
  | none =>
    let row : Reply :=
      { id := newId, post_id := postId, author_id := authorId,
        parent_reply_id := none, target_adu_id := input.target_adu_id,
        content := input.content, depth := 0, path := label,
        deleted_at := none }
    .ok (replies ++ [row], row)

end ReplyRepo

/-- The content tables touched by the reply route. -/
structure ContentState where
  posts : List Post
  replies : List Reply
deriving DecidableEq, Repr

inductive ReplyResult
  | ok (reply : Reply)
  | err (status : Nat) (error : String) (message : String)
deriving DecidableEq, Repr

/-- POST /posts/:id/replies after input validation: verify the post
exists; when parent_reply_id is given verify the parent exists (not
soft-deleted) and belongs to this post; then create the reply.  A
throw from ReplyRepo.create lands in the catch branch as a 500. -/
def createReplyHandler (s : ContentState) (postId : Nat) (authorId : String)
    (input : CreateReplyInput) (newId : Nat) : ContentState × ReplyResult :=
  match PostRepo.findById s.posts postId with
  | none => (s, .err 404 "Not Found" "Post not found")
  | some _ =>
    let proceed : ContentState × ReplyResult :=
      match ReplyRepo.create s.replies postId authorId input newId with
      | .error _ => (s, .err 500 "Internal Server Error" "Failed to create reply")
      | .ok (replies2, reply) => ({ s with replies := replies2 }, .ok reply)
    match input.parent_reply_id with
    | some pid =>
      match ReplyRepo.findById s.replies pid with
      | none => (s, .err 404 "Not Found" "Parent reply not found")
      | some parentReply =>
        if parentReply.post_id ≠ postId then
          (s, .err 400 "Bad Request" "Parent reply does not belong to this post")
        else proceed
    | none => proceed

/-! ## Agent routes (src/unnamed/part_003: the agents router) -/

structure RegisterInput where
  id : String
  name : String
  description : Option String := none
  model_info : Option String := none
deriving DecidableEq, Repr

/-- registerAgentSchema: id nonempty, at most 50 chars, only letters,
digits, underscores and hyphens; name nonempty, at most 100; optional
description at most 1000; optional model_info at most 255. -/
def registerInputValid (i : RegisterInput) : Bool :=
  decide (1 ≤ i.id.length) && decide (i.id.length ≤ 50) &&
    i.id.data.all (fun c => c.isAlphanum || c = '_' || c = '-') &&
    decide (1 ≤ i.name.length) && decide (i.name.length ≤ 100) &&
    (match i.description with
     | none => true
     | some d => decide (d.length ≤ 1000)) &&
    (match i.model_info with
     | none => true
     | some m => decide (m.length ≤ 255))

def MAX_AGENTS_PER_USER : Nat := 5

/-- Tables touched by the agents router. -/
structure AgentsState where
  agents : List AgentIdentity
  users : List UserRec
  tokens : List AgentToken
deriving DecidableEq, Repr

inductive RegisterResult
  | ok (agent : AgentIdentity)
  | err (status : Nat) (error : String) (message : String)
deriving DecidableEq, Repr

/-- Whether a response is a Conflict error in the sense of the error
taxonomy of the specification (HTTP 409 / error category Conflict). -/
def RegisterResult.isConflict : RegisterResult → Bool
  | .err status error _ => status = 409 || error = "Conflict"
  | .ok _ => false

namespace UserRepo

/-- Modelled from the spec: UserRepo is not under src/ (only its
callers and tests are).  Spec section 4.3 requires register to create
a paired authentication principal of type agent bound to the same
handle, the creation failing when the principal cannot be created
(surfacing success:false to the caller); the id is the primary key, so
creation fails when a user row with that id already exists. -/
def create (users : List UserRec) (id email : String) (userType : UserType)
    (displayName : Option String) : Except Unit (List UserRec × UserRec) :=
  if users.any fun u => u.id = id then .error ()
  else
    let row : UserRec :=
      { id := id, email := email, user_type := userType,
        display_name := displayName, deleted_at := none }
    .ok (users ++ [row], row)

end UserRepo

/-- POST /agents/register: humans only; validate the body; reject when
the owner already has MAX_AGENTS_PER_USER active agents or the
(case-insensitive) handle is taken; otherwise create the identity and
its paired agent user record, soft-deleting the identity again if the
user record cannot be created. -/
def registerAgentHandler (s : AgentsState) (user : Option AuthenticatedUser)
    (input : RegisterInput) (now : Nat) : AgentsState × RegisterResult :=
  match user with
  | none => (s, .err 403 "Forbidden" "Only human users can register agents")
  | some u =>
    if u.user_type ≠ .human then
      (s, .err 403 "Forbidden" "Only human users can register agents")
    else if ¬ registerInputValid input then
      (s, .err 400 "Validation Error" "Invalid input")
    else if MAX_AGENTS_PER_USER ≤ AgentRepo.countByOwner s.agents u.id then
      (s, .err 400 "Bad Request" "You can register a maximum of 5 agents")
    else
      match AgentRepo.findById s.agents input.id with
      | some _ => (s, .err 400 "Bad Request" "Agent ID already taken")
      | none =>
        let created := AgentRepo.create s.agents input.id u.id input.name
          input.description input.model_info
        match UserRepo.create s.users input.id (input.id ++ "@agent.chitin.social")
            .agent (some input.name) with
        | .error _ =>
          ({ s with agents := AgentRepo.softDelete created.1 input.id now },
            .err 500 "Internal Server Error" "Failed to create agent account")
        | .ok (users2, _) =>
          ({ s with agents := created.1, users := users2 }, .ok created.2)

inductive IssueResult
  | ok (token : AuthTokenPayload) (expiresAt : Nat) (jti : String)
  | err (status : Nat) (error : String) (message : String)
deriving DecidableEq, Repr

/-- POST /agents/:agentId/token: look up the agent, check ownership,
then store the token record (AgentRepo.createToken) and only after
that build and return the signed credential.  jti stands for the
uuidv4 the handler draws. -/
def issueTokenHandler (s : AgentsState) (caller : AuthenticatedUser)
    (agentId jti : String) (now : Nat) : AgentsState × IssueResult :=
  match AgentRepo.findById s.agents agentId with
  | none => (s, .err 404 "Not Found" "Agent not found")
  | some agent =>
    if agent.owner_id ≠ caller.id then
      (s, .err 403 "Forbidden" "You do not have permission to generate tokens for this agent")
    else
      let expiresAt := now + 60 * 60 * 1000
      let stored := AgentRepo.createToken s.tokens agentId jti expiresAt now
      let token := generateAuthToken agentId (agentId ++ "@agent.chitin.social") .agent (some jti)
      ({ s with tokens := stored.1 }, .ok token expiresAt jti)

/-! ## Analysis pipeline idempotency (spec section 4.2) -/

inductive AnalysisStatus
  | pending
  | processing
  | completed
  | failed
deriving DecidableEq, Repr

/-- Analysis artefacts attached to one content unit: its body, the
hash and status columns, and the ADUs, argument relations and
canonical-claim links the pipeline has persisted for it. -/
structure AnalysisState where
  body : String
  analysis_content_hash : String
  analysis_status : AnalysisStatus
  adus : List String
  relations : List (Nat × Nat)
  claimLinks : List (Nat × Nat)
deriving DecidableEq, Repr

/-- Modelled from the spec: the pipeline worker consuming
enqueueAnalysis jobs is not under src/ (only the enqueue calls in
routes/posts.ts and generateContentHash, a pure sha256 of the body,
are).  Spec section 4.2: step 1 compares the current body hash to the
hash recorded at the last completed analysis and skips all following
steps when it is unchanged and the status is already completed;
otherwise the run extracts ADUs, detects relations, links canonical
claims, records the body hash and completes.  The hash function and
the external analysis service are parameters; hashFn is applied to the
body alone, as generateContentHash is. -/
def runAnalysisPipeline (hashFn : String → String)
    (extract : String → List String)
    (detect : String → List (Nat × Nat))
    (canonicalize : String → List (Nat × Nat))
    (s : AnalysisState) : AnalysisState :=
  if hashFn s.body = s.analysis_content_hash ∧ s.analysis_status = .completed then s
  else
    { s with
      adus := s.adus ++ extract s.body,
      relations := s.relations ++ detect s.body,
      claimLinks := s.claimLinks ++ canonicalize s.body,
      analysis_content_hash := hashFn s.body,
      analysis_status := .completed }

/-! ## Concrete scenarios used to instantiate the theorems -/

/-- A post row with the fields the feed reads; remaining fields fixed. -/
def mkPost (id : Nat) (score : Int) (vc t : Nat) : Post :=
  { id := id, author_id := "author", score := score, vote_count := vc,
    reply_count := 0, created_at := t, deleted_at := none }

/-- Five posts with strictly decreasing scores 5,4,3,2,1, stored out of
order. -/
def fivePosts : List Post :=
  [mkPost 3 3 0 103, mkPost 1 5 0 105, mkPost 5 1 0 101, mkPost 2 4 0 104,
    mkPost 4 2 0 102]

def demoAgentA : AgentIdentity :=
  { id := "bot-a", owner_id := "owner-1", name := "Bot A", description := none,
    model_info := none, deleted_at := none }

def demoAgentB : AgentIdentity :=
  { id := "bot-b", owner_id := "owner-1", name := "Bot B", description := none,
    model_info := none, deleted_at := none }

/-- One owner with two agents; within the trailing hour one agent made
60 posts and the other 41. -/
def twoAgentState : SocialState :=
  { agents := [demoAgentA, demoAgentB],
    posts := List.replicate 60 { author_id := "bot-a", created_at := 3600001 }
      ++ List.replicate 41 { author_id := "bot-b", created_at := 3600001 },
    replies := [], votes := [] }

def demoAgentUserA : AuthenticatedUser :=
  { id := "bot-a", email := "bot-a@agent.chitin.social", user_type := .agent }

def fiveAgentOwner : AuthenticatedUser :=
  { id := "owner-5", email := "owner5@example.com", user_type := .human }

def nthAgent (n : Nat) : AgentIdentity :=
  { id := "agent-" ++ toString n, owner_id := "owner-5", name := "Agent",
    description := none, model_info := none, deleted_at := none }

/-- An owner who already has five active agents. -/
def fiveAgentState : AgentsState :=
  { agents := [nthAgent 1, nthAgent 2, nthAgent 3, nthAgent 4, nthAgent 5],
    users := [], tokens := [] }

/-- The same owner after soft-deleting one of the five agents. -/
def fourAgentState : AgentsState :=
  { fiveAgentState with
    agents := AgentRepo.softDelete fiveAgentState.agents "agent-3" 50 }

def sixthAgentInput : RegisterInput := { id := "agent-6", name := "Agent 6" }

def tokenDemoAgent : AgentIdentity :=
  { id := "bot-x", owner_id := "owner-1", name := "Bot X",
    description := none, model_info := none, deleted_at := none }

def tokenDemoState : AgentsState :=
  { agents := [tokenDemoAgent], users := [], tokens := [] }

def tokenDemoCaller : AuthenticatedUser :=
  { id := "owner-1", email := "owner1@example.com", user_type := .human }

/-- A post with id 1, a second post with id 2, and a reply attached to
post 2: replying to post 1 with that reply as parent must fail. -/
def crossPostReply : Reply :=
  { id := 10, post_id := 2, author_id := "u1", parent_reply_id := none,
    target_adu_id := none, content := "root", depth := 0, path := "10",
    deleted_at := none }

def crossPostState : ContentState :=
  { posts := [mkPost 1 0 0 10, mkPost 2 0 0 20], replies := [crossPostReply] }

/-! ## Theorems -/

/-- C9: running the analysis pipeline a second time on the same content
unit with an unchanged body changes nothing: the first run records the
body hash (a pure function of the body, applied to the body alone) and
the completed status, so the idempotency check of the second run
compares equal hashes, sees status completed and skips every step; in
particular no duplicate ADUs, argument relations or canonical-claim
links are written.  Stated for every hash function and every behaviour
of the external analysis service. -/
theorem analysis_pipeline_idempotent (hashFn : String → String)
    (extract : String → List String) (detect canonicalize : String → List (Nat × Nat))
    (s : AnalysisState) :
    runAnalysisPipeline hashFn extract detect canonicalize
        (runAnalysisPipeline hashFn extract detect canonicalize s)
      = runAnalysisPipeline hashFn extract detect canonicalize s := by
  unfold runAnalysisPipeline
  by_cases h : hashFn s.body = s.analysis_content_hash ∧ s.analysis_status = .completed
  · simp [h]
  · simp [h]

/-- C7: the per-owner aggregate limiter fails open: whenever either
awaited query inside the try block errors (in particular the
aggregate-activity count query), the catch branch calls next() and the
write request proceeds, for every action and every principal. -/
theorem aggregate_limiter_fails_open (action : ActionKind)
    (user : Option AuthenticatedUser) (a : AgentIdentity) (e e2 : Unit)
    (countsLookup : Except Unit ActivityCounts) :
    createOwnerAggregateLimiter action user (.ok (some a)) (.error e) = .next ∧
      createOwnerAggregateLimiter action user (.error e2) countsLookup = .next := by
  cases user with
  | none => exact ⟨rfl, rfl⟩
  | some u =>
    cases u.user_type <;>
      simp [createOwnerAggregateLimiter]

/-- Any request whose decoded credential carries a jti that the store
does not currently validate is answered 401. -/
theorem auth_rejects_invalid_jti (ts : List AgentToken) (now : Nat)
    (d : AuthTokenPayload) (j : String) (hj : d.jti = some j)
    (hid : d.id ≠ "") (hemail : d.email ≠ "")
    (hvalid : AgentRepo.isTokenValid ts now j = false) :
    authenticateToken ts now d = .err 401 "Unauthorized" "Token has been revoked" := by
  simp [authenticateToken, hj, hid, hemail, hvalid]

/-- Revoking all tokens of an agent invalidates a jti that was fresh
when the token was issued. -/
theorem isTokenValid_after_revokeAll (ts : List AgentToken) (agentId j : String)
    (expiresAt t1 t2 t3 : Nat) (hfresh : ∀ t ∈ ts, t.jti ≠ j) :
    AgentRepo.isTokenValid
        (AgentRepo.revokeAllTokens
          (AgentRepo.createToken ts agentId j expiresAt t1).1 agentId t2) t3 j
      = false := by
  simp only [AgentRepo.isTokenValid, AgentRepo.revokeAllTokens, AgentRepo.createToken,
    List.map_append, List.any_append, List.any_map, Bool.or_eq_false_iff,
    List.any_eq_false]
  constructor
  · intro t ht
    have hne := hfresh t ht
    by_cases hcase : t.agent_id = lowerStr agentId && t.revoked_at.isNone
    · simp [Function.comp, hcase, hne]
    · simp [Function.comp, hcase, hne]
  · simp

/-- C1: AgentRepo.isTokenValid holds exactly when a token record with
the given jti exists, is unrevoked and unexpired; the auth middleware
runs this check against the current store on every request whose
decoded credential carries a jti; consequently, issuing a token and
then revoking all tokens of that agent makes the very next
authenticated request presenting that credential fail 401 (the
Unauthenticated category), with no caching window. -/
theorem token_validation_and_revocation :
    (∀ (ts : List AgentToken) (now : Nat) (j : String),
        AgentRepo.isTokenValid ts now j = true ↔
          ∃ t ∈ ts, t.jti = j ∧ t.revoked_at = none ∧ now < t.expires_at) ∧
    (∀ (ts : List AgentToken) (now : Nat) (d : AuthTokenPayload) (j : String),
        d.jti = some j → d.id ≠ "" → d.email ≠ "" →
        AgentRepo.isTokenValid ts now j = false →
        authenticateToken ts now d = .err 401 "Unauthorized" "Token has been revoked") ∧
    (∀ (ts : List AgentToken) (agentId j : String) (expiresAt t1 t2 t3 : Nat)
        (d : AuthTokenPayload),
        (∀ t ∈ ts, t.jti ≠ j) → d.jti = some j → d.id ≠ "" → d.email ≠ "" →
        authenticateToken
            (AgentRepo.revokeAllTokens
              (AgentRepo.createToken ts agentId j expiresAt t1).1 agentId t2) t3 d
          = .err 401 "Unauthorized" "Token has been revoked") := by
  refine ⟨?_, auth_rejects_invalid_jti, ?_⟩
  · intro ts now j
    simp [AgentRepo.isTokenValid, List.any_eq_true, Option.isNone_iff_eq_none,
      and_assoc]
  · intro ts agentId j expiresAt t1 t2 t3 d hfresh hj hid hemail
    exact auth_rejects_invalid_jti _ t3 d j hj hid hemail
      (isTokenValid_after_revokeAll ts agentId j expiresAt t1 t2 t3 hfresh)

/-- C1 witness: a token issued for bot-x and then revoked via
revokeAllTokens is rejected on the very next request presenting it. -/
theorem token_validation_and_revocation_witness :
    authenticateToken
        (AgentRepo.revokeAllTokens
          (AgentRepo.createToken [] "bot-x" "jti-1" 7200000 3600000).1 "bot-x" 3600500)
        3601000
        { id := "bot-x", email := "bot-x@agent.chitin.social",
          user_type := .agent, jti := some "jti-1" }
      = .err 401 "Unauthorized" "Token has been revoked" :=
  token_validation_and_revocation.2.2 [] "bot-x" "jti-1" 7200000 3600000 3600500 3601000
    _ (by decide) rfl (by decide) (by decide)

/-- C2: a write request by an agent principal is answered 429 whenever
the aggregate count of that action over every non-deleted agent of the
owner within the trailing one-hour window has reached the fixed
ceiling, the ceilings being 100 posts, 500 replies and 1500 votes per
hour; the count is a single total over all agents of the owner, so only
the combined volume matters; a human principal is never touched by
this limiter, whatever the lookups return. -/
theorem owner_aggregate_limit :
    (∀ (action : ActionKind) (u : AuthenticatedUser) (a : AgentIdentity)
        (s : SocialState) (now : Nat),
        u.user_type = .agent →
        AGGREGATE_LIMITS action ≤
          (AgentRepo.getOwnerActivityCounts s a.owner_id (now - WINDOW_MS)).get action →
        createOwnerAggregateLimiter action (some u) (.ok (some a))
            (.ok (AgentRepo.getOwnerActivityCounts s a.owner_id (now - WINDOW_MS)))
          = .respond 429 "Too Many Requests") ∧
    (∀ (action : ActionKind) (u : AuthenticatedUser)
        (agentLookup : Except Unit (Option AgentIdentity))
        (countsLookup : Except Unit ActivityCounts),
        u.user_type = .human →
        createOwnerAggregateLimiter action (some u) agentLookup countsLookup = .next) ∧
    AGGREGATE_LIMITS .posts = 100 ∧ AGGREGATE_LIMITS .replies = 500 ∧
      AGGREGATE_LIMITS .votes = 1500 := by
  refine ⟨?_, ?_, rfl, rfl, rfl⟩
  · intro action u a s now hu hle
    simp [createOwnerAggregateLimiter, hu, hle]
  · intro action u agentLookup countsLookup hu
    simp [createOwnerAggregateLimiter, hu]

/-- C2 witness: one owner with two agents that posted 60 and 41 times
within the trailing hour has a combined count of 101, so the 102nd
combined post is rejected with 429 even though neither agent alone
reached 100. -/
theorem owner_aggregate_limit_witness :
    (AgentRepo.getOwnerActivityCounts twoAgentState demoAgentA.owner_id
        (7200000 - WINDOW_MS)).posts = 101 ∧
    createOwnerAggregateLimiter .posts (some demoAgentUserA)
        (.ok (some demoAgentA))
        (.ok (AgentRepo.getOwnerActivityCounts twoAgentState demoAgentA.owner_id
          (7200000 - WINDOW_MS)))
      = .respond 429 "Too Many Requests" :=
  ⟨by decide,
    owner_aggregate_limit.1 .posts _ demoAgentA twoAgentState 7200000 rfl (by decide)⟩

/-- C6: whenever the token-issuing handler returns a signed credential,
the store it leaves behind at that return already holds an unrevoked
token record carrying exactly the jti embedded in the credential and
the expiry reported with it (the unique handler path producing a
credential performs AgentRepo.createToken before building the JWT, and
no other path returns one). -/
theorem issue_token_records_jti (s : AgentsState) (caller : AuthenticatedUser)
    (agentId jti : String) (now : Nat) (s2 : AgentsState)
    (tok : AuthTokenPayload) (expiresAt : Nat) (j : String)
    (h : issueTokenHandler s caller agentId jti now = (s2, .ok tok expiresAt j)) :
    j = jti ∧ tok.jti = some jti ∧
      ∃ t ∈ s2.tokens, t.jti = jti ∧ t.expires_at = expiresAt ∧
        t.revoked_at = none := by
  unfold issueTokenHandler at h
  cases hfind : AgentRepo.findById s.agents agentId with
  | none => rw [hfind] at h; simp at h
  | some agent =>
    rw [hfind] at h
    by_cases hown : agent.owner_id ≠ caller.id
    · simp [hown] at h
    · simp only [hown, if_false, AgentRepo.createToken, generateAuthToken,
        Prod.mk.injEq, IssueResult.ok.injEq] at h
      obtain ⟨hs2, htok, hexp, hj⟩ := h
      refine ⟨hj.symm, ?_, ?_⟩
      · rw [← htok]
      · refine ⟨(AgentRepo.createToken s.tokens agentId jti
          (now + 60 * 60 * 1000) now).2, ?_, rfl, by rw [← hexp]; rfl, rfl⟩
        rw [← hs2]
        simp [AgentRepo.createToken]

/-- C6 witness: issuing a token for bot-x leaves a matching unrevoked
record with that jti and expiry in the resulting store. -/
theorem issue_token_records_jti_witness :
    "jti-9" = "jti-9" ∧
      (generateAuthToken "bot-x" "bot-x@agent.chitin.social" .agent
        (some "jti-9")).jti = some "jti-9" ∧
      ∃ t ∈ (issueTokenHandler tokenDemoState tokenDemoCaller "bot-x" "jti-9"
          1000).1.tokens,
        t.jti = "jti-9" ∧ t.expires_at = 1000 + 60 * 60 * 1000 ∧
          t.revoked_at = none :=
  issue_token_records_jti tokenDemoState tokenDemoCaller "bot-x" "jti-9" 1000
    (issueTokenHandler tokenDemoState tokenDemoCaller "bot-x" "jti-9" 1000).1
    (generateAuthToken "bot-x" "bot-x@agent.chitin.social" .agent (some "jti-9"))
    (1000 + 60 * 60 * 1000) "jti-9" (by decide)

/-- C10: replying with a parent reply that belongs to a different post
is rejected with 400 and leaves the state unchanged; a missing (or
soft-deleted) parent is rejected with 404 and leaves the state
unchanged; and a reply is only ever created when the named parent
exists, is not soft-deleted and belongs to the post being replied to. -/
theorem reply_parent_must_match_post :
    (∀ (s : ContentState) (postId : Nat) (authorId : String)
        (input : CreateReplyInput) (newId pid : Nat) (post : Post) (parent : Reply),
        PostRepo.findById s.posts postId = some post →
        input.parent_reply_id = some pid →
        ReplyRepo.findById s.replies pid = some parent →
        parent.post_id ≠ postId →
        createReplyHandler s postId authorId input newId
          = (s, .err 400 "Bad Request" "Parent reply does not belong to this post")) ∧
    (∀ (s : ContentState) (postId : Nat) (authorId : String)
        (input : CreateReplyInput) (newId pid : Nat) (post : Post),
        PostRepo.findById s.posts postId = some post →
        input.parent_reply_id = some pid →
        ReplyRepo.findById s.replies pid = none →
        createReplyHandler s postId authorId input newId
          = (s, .err 404 "Not Found" "Parent reply not found")) ∧
    (∀ (s : ContentState) (postId : Nat) (authorId : String)
        (input : CreateReplyInput) (newId pid : Nat) (s2 : ContentState)
        (reply : Reply),
        createReplyHandler s postId authorId input newId = (s2, .ok reply) →
        input.parent_reply_id = some pid →
        ∃ parent, ReplyRepo.findById s.replies pid = some parent ∧
          parent.post_id = postId ∧ parent.deleted_at = none) := by
  refine ⟨?_, ?_, ?_⟩
  · intro s postId authorId input newId pid post parent hpost hpid hparent hne
    simp [createReplyHandler, hpost, hpid, hparent, hne]
  · intro s postId authorId input newId pid post hpost hpid hparent
    simp [createReplyHandler, hpost, hpid, hparent]
  · intro s postId authorId input newId pid s2 reply h hpid
    unfold createReplyHandler at h
    rw [hpid] at h
    dsimp only at h
    split at h
    · simp at h
    · split at h
      · simp at h
      · rename_i parent hparent
        by_cases hne : parent.post_id ≠ postId
        · rw [if_pos hne] at h
          simp at h
        · have hparent2 : s.replies.find?
              (fun r => r.id = pid && r.deleted_at.isNone) = some parent := hparent
          have hfind := List.find?_some hparent2
          simp only [Bool.and_eq_true, decide_eq_true_eq,
            Option.isNone_iff_eq_none] at hfind
          exact ⟨parent, hparent, not_ne_iff.mp hne, hfind.2⟩

/-- C10 witness: post 1 exists, the parent reply belongs to post 2, so
the reply on post 1 naming it as parent is rejected with 400 and the
state is untouched. -/
theorem reply_parent_must_match_post_witness :
    createReplyHandler crossPostState 1 "u2"
        { content := "hi", parent_reply_id := some 10 } 99
      = (crossPostState,
          .err 400 "Bad Request" "Parent reply does not belong to this post") :=
  reply_parent_must_match_post.1 crossPostState 1 "u2"
    { content := "hi", parent_reply_id := some 10 } 99 10 (mkPost 1 0 0 10)
    crossPostReply (by decide) rfl (by decide) (by decide)

/-- C4: for every sort mode, limit and cursor, getFeed returns at most
limit items, and hasMore is true exactly when more rows match the
query than were returned: the query fetches limit+1 rows, trims the
extra one and reports whether the extra row existed.  getFeed is a
pure function of the stored posts (a read with no side effects). -/
theorem getFeed_limit_and_hasMore (cfg : FeedConfig) (posts : List Post)
    (sort : FeedSortType) (limit : Nat) (cursor : Option FeedCursor) (now : Nat) :
    (PostRepo.getFeed cfg posts sort limit cursor now).items.length ≤ limit ∧
      ((PostRepo.getFeed cfg posts sort limit cursor now).hasMore = true ↔
        limit < (posts.filter fun p =>
          p.deleted_at.isNone && modeCond sort cfg now p &&
            cursorCond sort cursor p).length) := by
  unfold PostRepo.getFeed
  dsimp only
  constructor
  · simp [List.length_take]
  · simp only [List.length_take, List.length_insertionSort, decide_eq_true_eq]
    omega

/-- Every item getFeed returns satisfies the WHERE clause of its mode. -/
theorem getFeed_item_satisfies_filter (cfg : FeedConfig) (posts : List Post)
    (sort : FeedSortType) (limit : Nat) (cursor : Option FeedCursor) (now : Nat)
    (p : Post) (h : p ∈ (PostRepo.getFeed cfg posts sort limit cursor now).items) :
    (p.deleted_at.isNone && modeCond sort cfg now p && cursorCond sort cursor p)
      = true := by
  unfold PostRepo.getFeed at h
  dsimp only at h
  have h1 := List.mem_of_mem_take h
  have h2 := List.mem_of_mem_take h1
  have h3 := (List.perm_insertionSort
    (fun a b => feedLe sort now a b = true) _).mem_iff.mp h2
  exact (List.mem_filter.mp h3).2

/-- C8: the rising sort returns only posts created inside the
configured recency window (every returned item has created_at strictly
newer than now minus the window, so an older item is excluded whatever
its vote_count), the controversial sort returns only posts whose
vote_count reaches the configured minimum (an item below it is
excluded whatever its score balance), and the configured defaults are
a 24-hour window and a 5-vote minimum. -/
theorem rising_controversial_restrictions :
    (∀ (cfg : FeedConfig) (posts : List Post) (limit : Nat)
        (cursor : Option FeedCursor) (now : Nat) (p : Post),
        p ∈ (PostRepo.getFeed cfg posts .rising limit cursor now).items →
        (now : Int) - (cfg.risingWindowHours * HOUR_MS : Nat) < (p.created_at : Int)) ∧
    (∀ (cfg : FeedConfig) (posts : List Post) (limit : Nat)
        (cursor : Option FeedCursor) (now : Nat) (p : Post),
        p ∈ (PostRepo.getFeed cfg posts .controversial limit cursor now).items →
        cfg.controversialMinVotes ≤ p.vote_count) ∧
    defaultFeedConfig.risingWindowHours = 24 ∧
      defaultFeedConfig.controversialMinVotes = 5 := by
  refine ⟨?_, ?_, rfl, rfl⟩
  · intro cfg posts limit cursor now p h
    have hf := getFeed_item_satisfies_filter cfg posts .rising limit cursor now p h
    simp only [modeCond, Bool.and_eq_true, decide_eq_true_eq] at hf
    exact hf.1.2
  · intro cfg posts limit cursor now p h
    have hf := getFeed_item_satisfies_filter cfg posts .controversial limit cursor now p h
    simp only [modeCond, Bool.and_eq_true, decide_eq_true_eq] at hf
    exact hf.1.2

/-- C8 witness: a post one hour old with 999 votes is returned by the
rising feed under the default config, and the window bound holds of it. -/
theorem rising_controversial_restrictions_witness :
    mkPost 1 0 999 HOUR_MS ∈ (PostRepo.getFeed defaultFeedConfig
        [mkPost 1 0 999 HOUR_MS] .rising 25 none (2 * HOUR_MS)).items ∧
      ((2 * HOUR_MS : Nat) : Int)
          - (defaultFeedConfig.risingWindowHours * HOUR_MS : Nat)
        < ((mkPost 1 0 999 HOUR_MS).created_at : Int) :=
  ⟨by decide,
    rising_controversial_restrictions.1 defaultFeedConfig
      [mkPost 1 0 999 HOUR_MS] 25 none (2 * HOUR_MS) (mkPost 1 0 999 HOUR_MS)
      (by decide)⟩

/-- The top precedence (score descending, creation time descending as
tie break) is total. -/
theorem topLe_total (a b : Post) : topLe a b = true ∨ topLe b a = true := by
  simp only [topLe, Bool.or_eq_true, Bool.and_eq_true, decide_eq_true_eq]
  omega

/-- The top precedence is transitive. -/
theorem topLe_trans (a b c : Post) (hab : topLe a b = true)
    (hbc : topLe b c = true) : topLe a c = true := by
  simp only [topLe, Bool.or_eq_true, Bool.and_eq_true, decide_eq_true_eq] at *
  omega

/-- C3: the top feed lists items in score-descending order with ties
broken by creation time descending (every returned page is sorted
under that precedence), and its cursor is the composite
(score, timestamp) pair of the last returned item; paginating the five
posts of strictly decreasing scores 5,4,3,2,1 with limit 2 yields the
pages [5,4], [3,2] and [1] in exactly that order, with no repeats,
composite cursors between pages and hasMore false only on the last
page. -/
theorem feed_top_sorted_and_paginates :
    (∀ (cfg : FeedConfig) (posts : List Post) (limit : Nat)
        (cursor : Option FeedCursor) (now : Nat),
        (PostRepo.getFeed cfg posts .top limit cursor now).items.Pairwise
          (fun a b => topLe a b = true)) ∧
    PostRepo.getFeed defaultFeedConfig fivePosts .top 2 none 1000
      = { items := [mkPost 1 5 0 105, mkPost 2 4 0 104],
          cursor := some (.scoreTime 4 104), hasMore := true } ∧
    PostRepo.getFeed defaultFeedConfig fivePosts .top 2
        (some (.scoreTime 4 104)) 1000
      = { items := [mkPost 3 3 0 103, mkPost 4 2 0 102],
          cursor := some (.scoreTime 2 102), hasMore := true } ∧
    PostRepo.getFeed defaultFeedConfig fivePosts .top 2
        (some (.scoreTime 2 102)) 1000
      = { items := [mkPost 5 1 0 101], cursor := none, hasMore := false } := by
  refine ⟨?_, by decide, by decide, by decide⟩
  intro cfg posts limit cursor now
  unfold PostRepo.getFeed
  dsimp only
  have hsorted : List.Pairwise (fun a b : Post => feedLe .top now a b = true)
      (List.insertionSort (fun a b => feedLe .top now a b = true)
        (posts.filter fun p => p.deleted_at.isNone && modeCond .top cfg now p &&
          cursorCond .top cursor p)) := by
    haveI : IsTotal Post (fun a b => feedLe .top now a b = true) := ⟨topLe_total⟩
    haveI : IsTrans Post (fun a b => feedLe .top now a b = true) :=
      ⟨fun a b c => topLe_trans a b c⟩
    exact List.sorted_insertionSort _ _
  exact hsorted.sublist ((List.take_sublist _ _).trans (List.take_sublist _ _))

/-- C5 counterexample: for an owner who already has five active agents
the handler rejects the sixth registration with HTTP 400 and the error
string Bad Request — not with a Conflict error (409 / Conflict), which
the route never produces. -/
theorem register_sixth_agent_not_conflict :
    (registerAgentHandler fiveAgentState (some fiveAgentOwner) sixthAgentInput 99).2
        = .err 400 "Bad Request" "You can register a maximum of 5 agents" ∧
      ((registerAgentHandler fiveAgentState (some fiveAgentOwner)
          sixthAgentInput 99).2).isConflict = false := by
  decide

/-- C5 (amended): register rejects — with a 400 Bad Request error — a
sixth registration for an owner who already has five active
(non-deleted) agents, and likewise a handle that is already taken,
the handle lookup being case-insensitive (it depends only on the
lowercased handle); and for an owner back under the cap (for instance
after soft-deleting one of the five), with a fresh handle and no
clashing user record, registration succeeds. -/
theorem register_agent_cap_and_handle (now : Nat) :
    (∀ (s : AgentsState) (u : AuthenticatedUser) (input : RegisterInput),
        u.user_type = .human → registerInputValid input = true →
        MAX_AGENTS_PER_USER ≤ AgentRepo.countByOwner s.agents u.id →
        registerAgentHandler s (some u) input now
          = (s, .err 400 "Bad Request" "You can register a maximum of 5 agents")) ∧
    (∀ (s : AgentsState) (u : AuthenticatedUser) (input : RegisterInput)
        (a : AgentIdentity),
        u.user_type = .human → registerInputValid input = true →
        AgentRepo.countByOwner s.agents u.id < MAX_AGENTS_PER_USER →
        AgentRepo.findById s.agents input.id = some a →
        registerAgentHandler s (some u) input now
          = (s, .err 400 "Bad Request" "Agent ID already taken")) ∧
    (∀ (agents : List AgentIdentity) (i1 i2 : String),
        lowerStr i1 = lowerStr i2 →
        AgentRepo.findById agents i1 = AgentRepo.findById agents i2) ∧
    (∀ (s : AgentsState) (u : AuthenticatedUser) (input : RegisterInput),
        u.user_type = .human → registerInputValid input = true →
        AgentRepo.countByOwner s.agents u.id < MAX_AGENTS_PER_USER →
        AgentRepo.findById s.agents input.id = none →
        (∀ usr ∈ s.users, usr.id ≠ input.id) →
        ∃ ag, (registerAgentHandler s (some u) input now).2 = .ok ag) := by
  refine ⟨?_, ?_, ?_, ?_⟩
  · intro s u input hu hvalid hcount
    simp [registerAgentHandler, hu, hvalid, hcount]
  · intro s u input a hu hvalid hcount hfind
    have hnot : ¬ MAX_AGENTS_PER_USER ≤ AgentRepo.countByOwner s.agents u.id :=
      Nat.not_le.mpr hcount
    simp [registerAgentHandler, hu, hvalid, hnot, hfind]
  · intro agents i1 i2 h
    simp only [AgentRepo.findById, h]
  · intro s u input hu hvalid hcount hfind husers
    have hnot : ¬ MAX_AGENTS_PER_USER ≤ AgentRepo.countByOwner s.agents u.id :=
      Nat.not_le.mpr hcount
    have hany : (s.users.any fun usr => usr.id = input.id) = false := by
      simp only [List.any_eq_false, Bool.not_eq_true, decide_eq_true_eq]
      exact husers
    refine ⟨(AgentRepo.create s.agents input.id u.id input.name
      input.description input.model_info).2, ?_⟩
    simp [registerAgentHandler, hu, hvalid, hnot, hfind, UserRepo.create, hany]

/-- C5 witness: the sixth registration for the five-agent owner is
rejected with 400 Bad Request; after soft-deleting one of the five
agents the same registration succeeds. -/
theorem register_agent_cap_and_handle_witness :
    registerAgentHandler fiveAgentState (some fiveAgentOwner) sixthAgentInput 99
        = (fiveAgentState,
            .err 400 "Bad Request" "You can register a maximum of 5 agents") ∧
      ∃ ag, (registerAgentHandler fourAgentState (some fiveAgentOwner)
          sixthAgentInput 99).2 = .ok ag :=
  ⟨(register_agent_cap_and_handle 99).1 fiveAgentState fiveAgentOwner
      sixthAgentInput rfl (by decide) (by decide),
    (register_agent_cap_and_handle 99).2.2.2 fourAgentState fiveAgentOwner
      sixthAgentInput rfl (by decide) (by decide) (by decide) (by decide)⟩

end ChitinSocial
